import Mathlib

/-!
Shallow embedding of the AthNLP 2024 retrieval-augmentation lab notebook
(`src/labs/athnlp24-rag-lab.ipynb`) and proofs about it.

The notebook's completed cells define a small evaluation pipeline for a
question-answering lab over PubMedQA records:

* `clean` (cell 7): `re.sub(" +", "", re.sub(r'[^A-Za-z.]+', ' ', answer))`;
* `eval_prediction` (cell 7): extracts an explanation string and a one-character
  answer symbol from each generation, dispatching on the type of the first
  value of the predictions dictionary;
* the accuracy computation (cells 9/17/23):
  `[True if answers[qid] == ground_truth[qid] else False
    for qid in answers.keys()].count(True) / len(qids)`;
* the tag-overlap neighbor loop (cell 15) and the few-shot prompt construction
  loop (cell 16), including `random.sample(neighbors[qid[0]], num_shots)`.

Python dictionaries are embedded as association lists in insertion order;
exceptions become `Except`/`Option` results.  Strings are processed through
their character lists so that every definition reduces in the kernel.
-/

deriving instance DecidableEq for Except

namespace RagLab

/-- A PubMedQA question instance as the notebook consumes it: a question id
(`qids`), the question text (`QUESTION`), the gold tag list (`concepts`), the
free-text rationale (`LONG_ANSWER`) and the gold label (`final_decision`,
one of yes/no/maybe). -/
structure Record where
  qid : String
  question : String
  concepts : List String
  longAnswer : String
  finalDecision : String
deriving DecidableEq, Repr

/-- Characters kept by the inner regex class `[A-Za-z.]` of `clean`:
ASCII letters and the period. -/
def isAlphaDot (c : Char) : Bool := c.isAlpha || c == '.'

/-- Embedding of `re.sub` for a pattern that is a character class repeated one
or more times: each maximal run of characters satisfying `bad` is replaced by
`repl`.  The boolean argument records whether the previous character belonged
to the current run (in which case the run's replacement was already
emitted). -/
def reSubRunsAux (bad : Char → Bool) (repl : List Char) : Bool → List Char → List Char
  | _, [] => []
  | inRun, c :: cs =>
    if bad c then (if inRun then [] else repl) ++ reSubRunsAux bad repl true cs
    else c :: reSubRunsAux bad repl false cs

/-- Replace each maximal run of characters satisfying `bad` by `repl`. -/
def reSubRuns (bad : Char → Bool) (repl : List Char) (l : List Char) : List Char :=
  reSubRunsAux bad repl false l

/-- Character-list core of `clean`: first
`re.sub(r'[^A-Za-z.]+', ' ', answer)` (each run of characters outside
`[A-Za-z.]` becomes one space), then `re.sub(" +", "", ...)` (each run of
spaces is replaced by the empty string, i.e. deleted). -/
def cleanL (l : List Char) : List Char :=
  reSubRuns (fun c => c == ' ') [] (reSubRuns (fun c => !(isAlphaDot c)) [' '] l)

/-- Cell 7 of the notebook:
`def clean(answer): return re.sub(" +", "", re.sub(r'[^A-Za-z.]+', ' ', answer))`. -/
def clean (answer : String) : String := ⟨cleanL answer.data⟩

/-- The spec's reading of `clean`: strip characters outside `{letters, period}`
(each run becoming one space) and then *collapse* consecutive whitespace to a
single space — i.e. the second substitution replaces each run of spaces by one
space instead of deleting it.  Used only to compare the spec's description
against the source's `clean`. -/
def cleanClaimed (s : String) : String :=
  ⟨reSubRuns (fun c => c == ' ') [' '] (reSubRuns (fun c => !(isAlphaDot c)) [' '] s.data)⟩

/-- Fuel-indexed embedding of Python `str.split(sep)` on character lists for a
non-empty separator: scan left to right, emitting the accumulated segment at
each non-overlapping occurrence of `sep`.  Each recursive call consumes at
least one character, so `fuel = length of the scanned list` never runs out;
the fuel-exhaustion arm exists only to make the recursion structural. -/
def splitFuel (sep : List Char) : Nat → List Char → List Char → List (List Char)
  | _, [], acc => [acc.reverse]
  | 0, l, acc => [acc.reverse ++ l]
  | fuel + 1, c :: cs, acc =>
    if sep.isPrefixOf (c :: cs) then
      acc.reverse :: splitFuel sep fuel (List.drop (sep.length - 1) cs) []
    else splitFuel sep fuel cs (c :: acc)

/-- Python `s.split(sep)` for a non-empty separator `sep`. -/
def pySplit (s sep : String) : List String :=
  (splitFuel sep.data s.data.length s.data []).map (fun l => ⟨l⟩)

/-- Python `s.strip()`: drop whitespace from both ends. -/
def pyStrip (s : String) : String :=
  ⟨((s.data.dropWhile Char.isWhitespace).reverse.dropWhile Char.isWhitespace).reverse⟩

/-- `s.split(m)[-1]`: Python `split` always returns a non-empty list, so the
default is never used. -/
def lastSeg (s m : String) : String := (pySplit s m).getLastD ""

/-- `s.split(m)[0]`. -/
def firstSeg (s m : String) : String := (pySplit s m).headD ""

/-- The rationale-field marker the notebook splits on. -/
def thinkMarker : String := "\"step_by_step_thinking\":"

/-- The answer-field marker the notebook splits on. -/
def ansMarker : String := "\"answer_choice\":"

/-- `prediction[qid].split("\"step_by_step_thinking\":")[-1]
.split("\"answer_choice\":")[0].strip()` — the explanation extracted for one
generation string. -/
def explanationOf (s : String) : String :=
  pyStrip (firstSeg (lastSeg s thinkMarker) ansMarker)

/-- `clean(prediction[qid].split("\"answer_choice\":")[-1].strip())` — the
cleaned answer segment of one generation string, before indexing `[0]`. -/
def answerSegment (s : String) : String :=
  clean (pyStrip (lastSeg s ansMarker))

/-- `clean(...)[0]`: the first character of the cleaned answer segment;
`none` models the `IndexError` raised when the cleaned segment is empty. -/
def answerOf (s : String) : Option Char :=
  (answerSegment s).data.head?

/-- A value of the predictions dictionary passed to `eval_prediction`: a
string, a list of strings, or anything else (the shapes `isinstance`
distinguishes in cell 7). -/
inductive PredVal where
  | str : String → PredVal
  | lst : List String → PredVal
  | other : PredVal
deriving DecidableEq, Repr

/-- Whether a prediction value is a Python `str`. -/
def isStr : PredVal → Bool
  | PredVal.str _ => true
  | _ => false

/-- Whether a prediction value is a Python `list`. -/
def isLst : PredVal → Bool
  | PredVal.lst _ => true
  | _ => false

/-- The Python exceptions the embedded notebook code can raise. -/
inductive EvalErr where
  | attrError
  | indexError
  | typeError
  | notImplemented
deriving DecidableEq, Repr

/-- A Python comprehension that may raise: evaluate `f` on each element left
to right, stopping at the first exception. -/
def compMapE {α β ε : Type} (f : α → Except ε β) : List α → Except ε (List β)
  | [] => Except.ok []
  | a :: l =>
    match f a with
    | Except.error e => Except.error e
    | Except.ok b =>
      match compMapE f l with
      | Except.error e => Except.error e
      | Except.ok bs => Except.ok (b :: bs)

/-- One entry of the string branch's `explanations` comprehension.  Calling
`.split` on a non-string value raises `AttributeError`. -/
def expEntry (p : String × PredVal) : Except EvalErr (String × String) :=
  match p.2 with
  | PredVal.str s => Except.ok (p.1, explanationOf s)
  | _ => Except.error EvalErr.attrError

/-- One entry of the string branch's `answers` comprehension; `IndexError`
when the cleaned answer segment is empty. -/
def ansEntry (p : String × PredVal) : Except EvalErr (String × Char) :=
  match p.2 with
  | PredVal.str s =>
    match answerOf s with
    | some c => Except.ok (p.1, c)
    | none => Except.error EvalErr.indexError
  | _ => Except.error EvalErr.attrError

/-- `prediction[qid][0]` in the list branch: the first element of a list
(`IndexError` on an empty list), the first character of a string (Python
indexing a `str` yields a one-character `str`), and `TypeError` on a
non-subscriptable value. -/
def lstEntryText : PredVal → Except EvalErr String
  | PredVal.lst l =>
    match l.head? with
    | some s => Except.ok s
    | none => Except.error EvalErr.indexError
  | PredVal.str s =>
    match s.data.head? with
    | some c => Except.ok (String.mk [c])
    | none => Except.error EvalErr.indexError
  | PredVal.other => Except.error EvalErr.typeError

/-- One entry of the list branch's `explanations` comprehension. -/
def expEntryL (p : String × PredVal) : Except EvalErr (String × String) :=
  match lstEntryText p.2 with
  | Except.ok s => Except.ok (p.1, explanationOf s)
  | Except.error e => Except.error e

/-- One entry of the list branch's `answers` comprehension. -/
def ansEntryL (p : String × PredVal) : Except EvalErr (String × Char) :=
  match lstEntryText p.2 with
  | Except.ok s =>
    match answerOf s with
    | some c => Except.ok (p.1, c)
    | none => Except.error EvalErr.indexError
  | Except.error e => Except.error e

/-- The string branch of `eval_prediction`: the `explanations` dictionary
comprehension runs first over every entry, then the `answers` one. -/
def evalStrBranch (pred : List (String × PredVal)) :
    Except EvalErr (List (String × String) × List (String × Char)) :=
  match compMapE expEntry pred with
  | Except.error e => Except.error e
  | Except.ok exps =>
    match compMapE ansEntry pred with
    | Except.error e => Except.error e
    | Except.ok ans => Except.ok (exps, ans)

/-- The list branch of `eval_prediction`. -/
def evalLstBranch (pred : List (String × PredVal)) :
    Except EvalErr (List (String × String) × List (String × Char)) :=
  match compMapE expEntryL pred with
  | Except.error e => Except.error e
  | Except.ok exps =>
    match compMapE ansEntryL pred with
    | Except.error e => Except.error e
    | Except.ok ans => Except.ok (exps, ans)

/-- Cell 7's `eval_prediction(prediction)`: dispatch on
`isinstance(prediction[list(prediction.keys())[0]], str)` / `list` — the type
of the value of the *first* key only — and otherwise
`raise NotImplementedError`.  An empty dictionary makes
`list(prediction.keys())[0]` itself raise `IndexError`. -/
def eval_prediction (pred : List (String × PredVal)) :
    Except EvalErr (List (String × String) × List (String × Char)) :=
  match pred.head? with
  | none => Except.error EvalErr.indexError
  | some (_, PredVal.str _) => evalStrBranch pred
  | some (_, PredVal.lst _) => evalLstBranch pred
  | some (_, PredVal.other) => Except.error EvalErr.notImplemented

/-- Dictionary lookup `m[k]` on an association list: first entry whose key
equals `k`. -/
def lookupG (m : List (String × Char)) (k : String) : Option Char :=
  (m.find? (fun p => p.1 == k)).map (fun p => p.2)

/-- The exceptions the accuracy line can raise: `KeyError` from
`ground_truth[qid]` and `ZeroDivisionError` from an empty test split. -/
inductive AccErr where
  | keyError
  | zeroDiv
deriving DecidableEq, Repr

/-- One entry of the accuracy list comprehension:
`True if answers[qid] == ground_truth[qid] else False` — raises `KeyError`
when `qid` is not a key of `ground_truth`. -/
def accEntry (gold : List (String × Char)) (p : String × Char) : Except AccErr Bool :=
  match lookupG gold p.1 with
  | some g => Except.ok (p.2 == g)
  | none => Except.error AccErr.keyError

/-- Cells 9/17/23 of the notebook:
`[True if answers[qid] == ground_truth[qid] else False
  for qid in answers.keys()].count(True) / len(pubmedqa_test_data.qids)`.
The comprehension iterates over the `answers` (predictions) keys and indexes
`ground_truth` by each; the denominator is the number of test qids, which
equals `gold.length` because `ground_truth` has one entry per (distinct)
test qid. -/
def accuracy (answers gold : List (String × Char)) : Except AccErr ℚ :=
  match compMapE (accEntry gold) answers with
  | Except.error e => Except.error e
  | Except.ok bs =>
    if gold.length = 0 then Except.error AccErr.zeroDiv
    else Except.ok ((bs.count true : ℚ) / (gold.length : ℚ))

/-- Whether one prediction entry is counted as `True` by the accuracy
comprehension (its gold lookup exists and matches). -/
def predMatch (gold : List (String × Char)) (p : String × Char) : Bool :=
  match lookupG gold p.1 with
  | some g => p.2 == g
  | none => false

/-- The number of prediction entries the accuracy comprehension counts as
`True`. -/
def matchCount (answers gold : List (String × Char)) : Nat :=
  answers.countP (predMatch gold)

/-- Cells 9/17/23:
`{pubmedqa_test_data.qids[idx]: mapping[pubmedqa_test_data.choices[idx]] ...}`
— the gold mapping from test qid to gold symbol; `none` models the `KeyError`
raised when a gold label is outside `mapping`. -/
def optionMapL {α β : Type} (f : α → Option β) : List α → Option (List β)
  | [] => some []
  | a :: l =>
    match f a, optionMapL f l with
    | some b, some bs => some (b :: bs)
    | _, _ => none

/-- Build the `ground_truth` dictionary of cells 9/17/23 from the test split
and the label mapping. -/
def ground_truth (testData : List Record) (mapping : List (String × Char)) :
    Option (List (String × Char)) :=
  optionMapL (fun r => (lookupG mapping r.finalDecision).map (fun c => (r.qid, c))) testData

/-- Cell 15's inner loop for one test record: for each train record, append
its qid whenever `bool(set([c[0] for c in concepts]) & set([c[0] for c in
concepts]))` holds, deduplicating (`list(set(...))`) after every step.  The
source intersects the query's concepts with *themselves*: `concepts_neig`
(the train record's `concepts`) never appears in the condition, so the test
is just "the query's concept set is non-empty".  `List.dedup` stands in for
`list(set(...))` (a Python set's iteration order is unspecified; the
properties proved below do not depend on the order). -/
def tagNeighborsFor (queryConcepts : List String) (train : List Record) : List String :=
  train.foldl
    (fun acc r =>
      (if (queryConcepts.inter queryConcepts) ≠ [] then acc ++ [r.qid] else acc).dedup)
    []

/-- Models Python's `random.sample(population, k)` (cell 16): raises
`ValueError` when `k` exceeds the population size, and otherwise returns `k`
distinct elements of the population; the concrete randomized choice is
abstracted as the first `k` elements, which none of the proved properties
depend on. -/
def randomSample (population : List String) (k : Nat) : Option (List String) :=
  if k ≤ population.length then some (population.take k) else none

/-- `pubmedqa_train_data.data.data[shot]` — look a train record up by qid. -/
def findRecord (rs : List Record) (qid : String) : Option Record :=
  rs.find? (fun r => r.qid == qid)

/-- One demonstration block of cell 16's prompt loop:
`data[shot]['QUESTION'] + " {\"step_by_step_thinking\": \"" +
 data[shot]['LONG_ANSWER'] + "\"answer_choice\": \"" +
 mapping[data[shot]['final_decision']] + "\"}\n \n"`;
`none` models the `KeyError` when the gold label is outside `mapping`. -/
def demoBlock (mapping : List (String × Char)) (r : Record) : Option String :=
  (lookupG mapping r.finalDecision).map (fun sym =>
    r.question ++ " \x7b\"step_by_step_thinking\": \"" ++ r.longAnswer ++
      "\"answer_choice\": \"" ++ String.mk [sym] ++ "\"\x7d\n \n")

/-- Cell 16's prompt construction: `query = ""`, then `query += block` for
each selected shot, then `query += question[0]`. -/
def buildPrompt (trainData : List Record) (mapping : List (String × Char))
    (shots : List String) (question : String) : Option String :=
  (optionMapL (fun shot => (findRecord trainData shot).bind (demoBlock mapping)) shots).map
    (fun blocks => String.join blocks ++ question)

/-- The label mapping of cells 9/16/17/23: `{'yes': 'A', 'no': 'B', 'maybe': 'C'}`. -/
def mappingYNM : List (String × Char) := [("yes", 'A'), ("no", 'B'), ("maybe", 'C')]

/-- `DataLoaderPQAInferenceWithAugmentations(boundaries=[lo, hi])`: the
contiguous index range `[lo, hi)` of the corpus. -/
def sliceRange (l : List Record) (lo hi : Nat) : List Record :=
  (l.drop lo).take (hi - lo)

/-- A four-record corpus for the end-to-end scenario: train range `[0,3)`,
test range `[3,4)`, test record gold label `yes`. -/
def demoCorpus : List Record :=
  [{ qid := "q0", question := "Does zero?", concepts := ["t0"],
     longAnswer := "Zero because.", finalDecision := "no" },
   { qid := "q1", question := "Does one?", concepts := ["t1"],
     longAnswer := "One because.", finalDecision := "maybe" },
   { qid := "q2", question := "Does two?", concepts := ["t2"],
     longAnswer := "Two because.", finalDecision := "yes" },
   { qid := "q3", question := "Does three?", concepts := ["t3"],
     longAnswer := "Three because.", finalDecision := "yes" }]

/-- The train split `[0,3)` of the demo corpus. -/
def trainSplit : List Record := sliceRange demoCorpus 0 3

/-- The test split `[3,4)` of the demo corpus. -/
def testSplit : List Record := sliceRange demoCorpus 3 4

/-- The stub generation answering `"A"` in the structured shape the notebook
parses. -/
def stubGenA : String :=
  "\x7b\"step_by_step_thinking\": \"ok\",\"answer_choice\": \"A\"\x7d"

/-- The stub generation answering `"B"`. -/
def stubGenB : String :=
  "\x7b\"step_by_step_thinking\": \"ok\",\"answer_choice\": \"B\"\x7d"

/-- Train record A of the tag-overlap scenario of the spec. -/
def recA : Record :=
  { qid := "A", question := "qa", concepts := ["diabetes", "insulin"],
    longAnswer := "la", finalDecision := "yes" }

/-- Train record B of the tag-overlap scenario of the spec. -/
def recB : Record :=
  { qid := "B", question := "qb", concepts := ["cancer"],
    longAnswer := "lb", finalDecision := "no" }

/-! ### Lemmas about `clean` -/

/-- The outer substitution `re.sub(" +", "", s)` deletes every space. -/
theorem reSubRunsAux_del_space (l : List Char) :
    ∀ b : Bool, reSubRunsAux (fun c => c == ' ') [] b l = l.filter (fun c => !(c == ' ')) := by
  induction l with
  | nil => intro b; rfl
  | cons c cs ih =>
    intro b
    by_cases hc : c = ' '
    · subst hc
      simp [reSubRunsAux, ih]
    · simp [reSubRunsAux, hc, ih]

/-- After the inner substitution, deleting the spaces leaves exactly the
characters of the input that belong to `[A-Za-z.]`. -/
theorem filter_reSubRunsAux_bad (l : List Char) :
    ∀ b : Bool,
      (reSubRunsAux (fun c => !(isAlphaDot c)) [' '] b l).filter (fun c => !(c == ' '))
        = l.filter isAlphaDot := by
  induction l with
  | nil => intro b; rfl
  | cons c cs ih =>
    intro b
    by_cases hc : isAlphaDot c = true
    · have hcs : ¬ c = ' ' := by
        intro h
        rw [h] at hc
        exact absurd hc (by decide)
      simp [reSubRunsAux, hc, hcs, ih]
    · cases b <;> simp [reSubRunsAux, hc, ih]

/-- `cleanL` keeps exactly the letters and periods of its input, in order. -/
theorem cleanL_eq_filter (l : List Char) : cleanL l = l.filter isAlphaDot := by
  rw [cleanL, reSubRuns, reSubRuns, reSubRunsAux_del_space, filter_reSubRunsAux_bad]

/-- `clean` keeps exactly the letters and periods of its input, in order. -/
theorem clean_eq_filter (s : String) : clean s = String.mk (s.data.filter isAlphaDot) := by
  rw [clean, cleanL_eq_filter]

/-- `cleanL` is idempotent. -/
theorem cleanL_idem (l : List Char) : cleanL (cleanL l) = cleanL l := by
  simp [cleanL_eq_filter, List.filter_filter]

/-- C2 (counterexample): the claim says `clean` collapses consecutive
whitespace so that single spaces survive in the result; on the spec's own
example input the source's `clean` deletes the spaces outright, unlike the
collapse-to-one-space normalization the claim describes (`cleanClaimed`). -/
theorem clean_collapse_counterexample :
    clean "RIS(K)! of.. Bias" = "RISKof..Bias"
      ∧ cleanClaimed "RIS(K)! of.. Bias" = "RIS K of.. Bias"
      ∧ clean "RIS(K)! of.. Bias" ≠ cleanClaimed "RIS(K)! of.. Bias" := by decide

/-- C2 (amended): `clean` replaces each run of characters outside
`{letters, period}` with a single space and then deletes every space, so the
result is exactly the subsequence of letters and periods of the input — it
contains no spaces at all. -/
theorem clean_strip_amended (s : String) :
    clean s = String.mk (s.data.filter isAlphaDot)
      ∧ ∀ c ∈ (clean s).data, isAlphaDot c = true := by
  refine ⟨clean_eq_filter s, ?_⟩
  intro c hc
  rw [clean_eq_filter s] at hc
  exact (List.mem_filter.mp hc).2

/-- Witness for `clean_strip_amended` at the spec's example input. -/
theorem clean_strip_amended_witness :
    clean "RIS(K)! of.. Bias" = String.mk ("RIS(K)! of.. Bias".data.filter isAlphaDot)
      ∧ isAlphaDot 'R' = true :=
  ⟨(clean_strip_amended "RIS(K)! of.. Bias").1,
   (clean_strip_amended "RIS(K)! of.. Bias").2 'R' (by decide)⟩

/-- C7: `clean` is idempotent, and repeated calls on the same input yield the
same first character. -/
theorem clean_idempotent (x : String) :
    clean (clean x) = clean x
      ∧ ∀ y : String, y = x → (clean y).data.head? = (clean x).data.head? := by
  constructor
  · show (⟨cleanL (cleanL x.data)⟩ : String) = ⟨cleanL x.data⟩
    rw [cleanL_idem]
  · intro y hy
    rw [hy]

/-- Witness for `clean_idempotent` at the spec's example input. -/
theorem clean_idempotent_witness :
    clean (clean "RIS(K)! of.. Bias") = clean "RIS(K)! of.. Bias"
      ∧ (clean "RIS(K)! of.. Bias").data.head? = (clean "RIS(K)! of.. Bias").data.head? :=
  ⟨(clean_idempotent "RIS(K)! of.. Bias").1,
   (clean_idempotent "RIS(K)! of.. Bias").2 "RIS(K)! of.. Bias" rfl⟩

/-! ### Tag-overlap retrieval (C1) -/

/-- C1 (code bug): cell 15 intersects the query's concept set with itself, so
with query tags `{"diabetes"}` the train record `B` with tags `{"cancer"}` —
disjoint from the query's — is returned as a neighbor, and the neighbor list
is not `[A]` as the spec requires. -/
theorem tag_overlap_disjoint_neighbor_bug :
    List.inter ["diabetes"] recB.concepts = []
      ∧ recB.qid ∈ tagNeighborsFor ["diabetes"] [recA, recB]
      ∧ tagNeighborsFor ["diabetes"] [recA, recB] ≠ [recA.qid] := by decide

/-! ### End-to-end scenario (C3) -/

/-- C3: with train range `[0,3)`, test range `[3,4)`, gold mapping
`{yes:A, no:B, maybe:C}` and test gold label `yes`, a stub generation shaped
`{"step_by_step_thinking": "ok","answer_choice": "A"}` parses to answer
symbol `A` and scores accuracy `1`; the same shape with answer `B` scores
accuracy `0`. -/
theorem end_to_end_single_item :
    ground_truth testSplit mappingYNM = some [("q3", 'A')]
      ∧ eval_prediction [("q3", PredVal.str stubGenA)] =
          Except.ok ([("q3", "\"ok\",")], [("q3", 'A')])
      ∧ accuracy [("q3", 'A')] [("q3", 'A')] = Except.ok 1
      ∧ eval_prediction [("q3", PredVal.str stubGenB)] =
          Except.ok ([("q3", "\"ok\",")], [("q3", 'B')])
      ∧ accuracy [("q3", 'B')] [("q3", 'A')] = Except.ok 0 := by
  refine ⟨by decide, by decide, ?_, by decide, ?_⟩
  · norm_num [accuracy, compMapE, accEntry, lookupG]
  · norm_num [accuracy, compMapE, accEntry, lookupG, List.count_cons]
    decide

/-! ### Demonstration selection (C5) and prompt assembly (C8) -/

/-- C5: requesting more demonstrations than the candidate neighbor list holds
fails (`random.sample` raises `ValueError`) rather than silently selecting
fewer. -/
theorem random_sample_insufficient (population : List String) (k : Nat)
    (h : population.length < k) : randomSample population k = none := by
  rw [randomSample, if_neg (by omega)]

/-- Witness for `random_sample_insufficient`: `num_shots = 5` against a
neighbor list of length 2. -/
theorem random_sample_insufficient_witness :
    randomSample ["n1", "n2"] 5 = none :=
  random_sample_insufficient ["n1", "n2"] 5 (by decide)

/-- C8: prompt assembly is deterministic — the same train data, mapping,
shot sequence and query yield the same prompt string, and each demonstration
block serializes identically for the same record and mapping. -/
theorem prompt_deterministic (td₁ td₂ : List Record) (m₁ m₂ : List (String × Char))
    (sh₁ sh₂ : List String) (q₁ q₂ : String) (r₁ r₂ : Record)
    (htd : td₁ = td₂) (hm : m₁ = m₂) (hsh : sh₁ = sh₂) (hq : q₁ = q₂) (hr : r₁ = r₂) :
    buildPrompt td₁ m₁ sh₁ q₁ = buildPrompt td₂ m₂ sh₂ q₂
      ∧ demoBlock m₁ r₁ = demoBlock m₂ r₂ := by
  subst htd; subst hm; subst hsh; subst hq; subst hr
  exact ⟨rfl, rfl⟩

/-- Witness for `prompt_deterministic` at concrete inputs. -/
theorem prompt_deterministic_witness :
    buildPrompt trainSplit mappingYNM ["q0"] "Does three?" =
        buildPrompt trainSplit mappingYNM ["q0"] "Does three?"
      ∧ demoBlock mappingYNM recA = demoBlock mappingYNM recA :=
  prompt_deterministic trainSplit trainSplit mappingYNM mappingYNM ["q0"] ["q0"]
    "Does three?" "Does three?" recA recA rfl rfl rfl rfl rfl

/-! ### Lemmas about `accuracy` (C4, C10) -/

/-- When every prediction key is found in the gold mapping, the accuracy
comprehension evaluates to the list of per-entry match booleans. -/
theorem compMapE_accEntry_ok (gold : List (String × Char)) :
    ∀ answers : List (String × Char),
      (∀ p ∈ answers, (lookupG gold p.1).isSome) →
      compMapE (accEntry gold) answers = Except.ok (answers.map (predMatch gold)) := by
  intro answers
  induction answers with
  | nil => intro _; rfl
  | cons p l ih =>
    intro h
    have hp := h p (List.mem_cons_self p l)
    cases hl : lookupG gold p.1 with
    | none => rw [hl] at hp; simp at hp
    | some g =>
      have hrest := ih (fun q hq => h q (List.mem_cons_of_mem p hq))
      simp [compMapE, accEntry, predMatch, hl, hrest]

/-- When some prediction key is missing from the gold mapping, the accuracy
comprehension raises `KeyError`. -/
theorem compMapE_accEntry_error (gold : List (String × Char)) :
    ∀ answers : List (String × Char),
      (∃ p ∈ answers, lookupG gold p.1 = none) →
      compMapE (accEntry gold) answers = Except.error AccErr.keyError := by
  intro answers
  induction answers with
  | nil => intro h; rcases h with ⟨p, hp, _⟩; cases hp
  | cons q l ih =>
    intro h
    rcases h with ⟨p, hp, hpn⟩
    rcases List.mem_cons.mp hp with rfl | hmem
    · simp [compMapE, accEntry, hpn]
    · cases hl : lookupG gold q.1 with
      | none => simp [compMapE, accEntry, hl]
      | some g => simp [compMapE, accEntry, hl, ih ⟨p, hmem, hpn⟩]

/-- Counting `True` in the per-entry booleans is `matchCount`. -/
theorem count_map_predMatch (gold answers : List (String × Char)) :
    (answers.map (predMatch gold)).count true = matchCount answers gold := by
  rw [matchCount, List.count_eq_countP, List.countP_map]
  apply List.countP_congr
  intro p _
  simp [Function.comp]

/-- On well-keyed inputs `accuracy` returns `matchCount / |gold|`. -/
theorem accuracy_ok (answers gold : List (String × Char))
    (hsub : ∀ p ∈ answers, (lookupG gold p.1).isSome) (hne : gold ≠ []) :
    accuracy answers gold =
      Except.ok ((matchCount answers gold : ℚ) / (gold.length : ℚ)) := by
  have hlen : ¬ gold.length = 0 := by
    simpa [List.length_eq_zero] using hne
  rw [accuracy, compMapE_accEntry_ok gold answers hsub]
  simp [hlen, count_map_predMatch]

/-- With no-duplicate keys, looking an entry's own key up returns its value. -/
theorem lookupG_self (gold : List (String × Char)) :
    (gold.map Prod.fst).Nodup → ∀ p ∈ gold, lookupG gold p.1 = some p.2 := by
  induction gold with
  | nil => intro _ p hp; cases hp
  | cons q l ih =>
    intro hg p hp
    rw [List.map_cons, List.nodup_cons] at hg
    rcases List.mem_cons.mp hp with rfl | hmem
    · simp [lookupG]
    · have hne : (q.1 == p.1) = false := by
        rw [beq_eq_false_iff_ne]
        intro hEq
        exact hg.1 (hEq ▸ List.mem_map_of_mem Prod.fst hmem)
      have := ih hg.2 p hmem
      rw [lookupG] at this ⊢
      simpa [List.find?, hne] using this

/-- Prediction keys found in a duplicate-free gold mapping bound the number
of predictions by the number of gold entries. -/
theorem keys_length_le (answers gold : List (String × Char))
    (ha : (answers.map Prod.fst).Nodup)
    (hsub : ∀ p ∈ answers, (lookupG gold p.1).isSome) :
    answers.length ≤ gold.length := by
  have h1 : (answers.map Prod.fst).toFinset.card = (answers.map Prod.fst).length :=
    List.toFinset_card_of_nodup ha
  have hsub' : (answers.map Prod.fst).toFinset ⊆ (gold.map Prod.fst).toFinset := by
    intro x hx
    rw [List.mem_toFinset] at hx ⊢
    rcases List.mem_map.mp hx with ⟨p, hp, rfl⟩
    have hs := hsub p hp
    rw [lookupG] at hs
    rcases Option.isSome_iff_exists.mp hs with ⟨c, hc⟩
    rcases Option.map_eq_some'.mp hc with ⟨q, hq, _⟩
    have hmem := List.mem_of_find?_eq_some hq
    have hkey := List.find?_some hq
    simp only [beq_iff_eq] at hkey
    exact hkey ▸ List.mem_map_of_mem Prod.fst hmem
  calc answers.length = (answers.map Prod.fst).length := (List.length_map _ _).symm
    _ = (answers.map Prod.fst).toFinset.card := h1.symm
    _ ≤ (gold.map Prod.fst).toFinset.card := Finset.card_le_card hsub'
    _ ≤ (gold.map Prod.fst).length := List.toFinset_card_le _
    _ = gold.length := List.length_map _ _

/-- C4 (counterexample): for a predictions mapping containing an id absent
from gold, the accuracy line raises `KeyError` instead of returning the
claimed score `0/1`. -/
theorem accuracy_extraneous_counterexample :
    accuracy [("x", 'A')] [("y", 'A')] = Except.error AccErr.keyError
      ∧ accuracy [("x", 'A')] [("y", 'A')] ≠ Except.ok 0 := by decide

/-- C4 (amended): when gold and prediction keys are duplicate-free, every
prediction id occurs in gold, and gold is non-empty, accuracy equals the
number of matching ids divided by the number of gold ids, lies in `[0,1]`,
counts gold ids missing from the predictions as incorrect without raising,
equals `1` when predictions equal gold, and `0` when every predicted symbol
differs; predictions with an id absent from gold instead raise `KeyError`. -/
theorem accuracy_contract_amended (answers gold : List (String × Char))
    (hg : (gold.map Prod.fst).Nodup) (ha : (answers.map Prod.fst).Nodup)
    (hsub : ∀ p ∈ answers, (lookupG gold p.1).isSome) (hne : gold ≠ []) :
    accuracy answers gold = Except.ok ((matchCount answers gold : ℚ) / (gold.length : ℚ))
      ∧ 0 ≤ ((matchCount answers gold : ℚ) / (gold.length : ℚ))
      ∧ ((matchCount answers gold : ℚ) / (gold.length : ℚ)) ≤ 1
      ∧ (answers = gold → accuracy answers gold = Except.ok 1)
      ∧ ((∀ p ∈ answers, predMatch gold p = false) → accuracy answers gold = Except.ok 0) := by
  have hlenpos : 0 < gold.length := List.length_pos.mpr hne
  have hq0 : (0 : ℚ) < (gold.length : ℚ) := by exact_mod_cast hlenpos
  refine ⟨accuracy_ok answers gold hsub hne, ?_, ?_, ?_, ?_⟩
  · positivity
  · rw [div_le_one hq0]
    have h1 : matchCount answers gold ≤ answers.length := List.countP_le_length _
    have h2 := keys_length_le answers gold ha hsub
    exact_mod_cast le_trans h1 h2
  · intro hEq
    subst hEq
    have hm : matchCount answers answers = answers.length := by
      rw [matchCount, List.countP_eq_length]
      intro p hp
      simp [predMatch, lookupG_self answers hg p hp]
    rw [accuracy_ok answers answers hsub hne, hm]
    congr 1
    exact div_self (ne_of_gt hq0)
  · intro hAll
    have hm : matchCount answers gold = 0 := by
      rw [matchCount, List.countP_eq_zero]
      intro p hp
      simp [hAll p hp]
    rw [accuracy_ok answers gold hsub hne, hm]
    norm_num

/-- Witness for `accuracy_contract_amended`: predictions equal to gold on a
single id score `1`. -/
theorem accuracy_contract_amended_witness :
    accuracy [("q", 'A')] [("q", 'A')] = Except.ok 1 :=
  (accuracy_contract_amended [("q", 'A')] [("q", 'A')] (by decide) (by decide)
    (by decide) (by decide)).2.2.2.1 rfl

/-- C10: the accuracy line iterates over the prediction keys and indexes the
gold mapping by each, so a prediction id absent from gold raises `KeyError`;
when every prediction id is found (ids missing from the predictions need no
lookup) and gold is non-empty, it returns a score without raising. -/
theorem accuracy_key_iteration :
    (∀ answers gold : List (String × Char),
        (∃ p ∈ answers, lookupG gold p.1 = none) →
        accuracy answers gold = Except.error AccErr.keyError)
      ∧ (∀ answers gold : List (String × Char),
          gold ≠ [] → (∀ p ∈ answers, (lookupG gold p.1).isSome) →
          accuracy answers gold =
            Except.ok ((matchCount answers gold : ℚ) / (gold.length : ℚ))) := by
  constructor
  · intro answers gold h
    rw [accuracy, compMapE_accEntry_error gold answers h]
  · intro answers gold hne hsub
    exact accuracy_ok answers gold hsub hne

/-- Witness for `accuracy_key_iteration` at concrete inputs. -/
theorem accuracy_key_iteration_witness :
    accuracy [("x", 'A')] [("y", 'A')] = Except.error AccErr.keyError
      ∧ accuracy [("y", 'B')] [("y", 'B')] =
          Except.ok ((matchCount [("y", 'B')] [("y", 'B')] : ℚ) /
            (([("y", 'B')] : List (String × Char)).length : ℚ)) :=
  ⟨accuracy_key_iteration.1 [("x", 'A')] [("y", 'A')] ⟨("x", 'A'), by simp, rfl⟩,
   accuracy_key_iteration.2 [("y", 'B')] [("y", 'B')] (by decide) (by decide)⟩

/-! ### Lemmas about `eval_prediction` (C6, C9) -/

/-- The string branch's `explanations` comprehension raises `AttributeError`
as soon as the predictions dictionary holds any non-string value. -/
theorem compMapE_expEntry_error :
    ∀ pred : List (String × PredVal), (∃ p ∈ pred, isStr p.2 = false) →
      compMapE expEntry pred = Except.error EvalErr.attrError := by
  intro pred
  induction pred with
  | nil => intro h; rcases h with ⟨p, hp, _⟩; cases hp
  | cons q l ih =>
    intro h
    rcases h with ⟨p, hp, hps⟩
    rcases List.mem_cons.mp hp with rfl | hmem
    · cases hv : p.2 with
      | str s => rw [hv] at hps; simp [isStr] at hps
      | lst ls => simp [compMapE, expEntry, hv]
      | other => simp [compMapE, expEntry, hv]
    · cases hv : q.2 with
      | str s => simp [compMapE, expEntry, hv, ih ⟨p, hmem, hps⟩]
      | lst ls => simp [compMapE, expEntry, hv]
      | other => simp [compMapE, expEntry, hv]

/-- C6 (counterexample): the claim says parsing fails when the rationale or
answer marker is absent; on input `"hello"`, which contains neither marker,
`split` returns the whole string as only segment and `eval_prediction`
succeeds, returning explanation `"hello"` and answer symbol `'h'`. -/
theorem eval_missing_marker_counterexample :
    pySplit "hello" thinkMarker = ["hello"]
      ∧ pySplit "hello" ansMarker = ["hello"]
      ∧ eval_prediction [("q", PredVal.str "hello")] =
          Except.ok ([("q", "hello")], [("q", 'h')]) := by decide

/-- C6 (amended): absent markers do not make parsing fail (the whole string
is used as the segment); parsing a string entry fails (`IndexError`, the
code's `MalformedAnswer`) exactly when the cleaned answer segment is empty,
and an input value that is neither a string nor a list fails with
`NotImplementedError` (the code's `UnsupportedFormat`). -/
theorem parse_failure_amended (q s : String) (hempty : answerSegment s = "") :
    eval_prediction [(q, PredVal.str s)] = Except.error EvalErr.indexError
      ∧ eval_prediction [(q, PredVal.other)] = Except.error EvalErr.notImplemented := by
  constructor
  · have h1 : answerOf s = none := by rw [answerOf, hempty]; rfl
    simp [eval_prediction, evalStrBranch, compMapE, expEntry, ansEntry, h1]
  · rfl

/-- Witness for `parse_failure_amended`: the generation `"123"` cleans to the
empty answer segment. -/
theorem parse_failure_amended_witness :
    answerSegment "123" = ""
      ∧ eval_prediction [("q", PredVal.str "123")] = Except.error EvalErr.indexError
      ∧ eval_prediction [("q", PredVal.other)] = Except.error EvalErr.notImplemented :=
  ⟨by decide, (parse_failure_amended "q" "123" (by decide)).1,
   (parse_failure_amended "q" "123" (by decide)).2⟩

/-- A list value is not a string value. -/
theorem isStr_eq_false_of_isLst (v : PredVal) (h : isLst v = true) : isStr v = false := by
  cases v with
  | str s => simp [isLst] at h
  | lst l => rfl
  | other => simp [isLst] at h

/-- C9: `eval_prediction` chooses its branch from the type of the first
key's value alone; when that value is a string, the string branch handles
every entry, so a later list value is processed by the string handling and
raises `AttributeError` (from `.split` on a list) rather than being handled
by the list branch. -/
theorem eval_first_value_dispatch (q : String) (v : PredVal)
    (rest : List (String × PredVal)) (hv : isStr v = true) :
    eval_prediction ((q, v) :: rest) = evalStrBranch ((q, v) :: rest)
      ∧ ((∃ p ∈ rest, isLst p.2 = true) →
          eval_prediction ((q, v) :: rest) = Except.error EvalErr.attrError) := by
  cases v with
  | str s =>
    constructor
    · rfl
    · intro h
      rcases h with ⟨p, hp, hpl⟩
      have hs : isStr p.2 = false := isStr_eq_false_of_isLst p.2 hpl
      have herr := compMapE_expEntry_error ((q, PredVal.str s) :: rest)
        ⟨p, List.mem_cons_of_mem _ hp, hs⟩
      show evalStrBranch ((q, PredVal.str s) :: rest) = _
      rw [evalStrBranch, herr]
  | lst ls => simp [isStr] at hv
  | other => simp [isStr] at hv

/-- Witness for `eval_first_value_dispatch`: first value a string, second a
list. -/
theorem eval_first_value_dispatch_witness :
    isStr (PredVal.str "s") = true
      ∧ eval_prediction [("a", PredVal.str "s"), ("b", PredVal.lst ["t"])] =
          evalStrBranch [("a", PredVal.str "s"), ("b", PredVal.lst ["t"])]
      ∧ eval_prediction [("a", PredVal.str "s"), ("b", PredVal.lst ["t"])] =
          Except.error EvalErr.attrError :=
  ⟨rfl,
   (eval_first_value_dispatch "a" (PredVal.str "s") [("b", PredVal.lst ["t"])] rfl).1,
   (eval_first_value_dispatch "a" (PredVal.str "s") [("b", PredVal.lst ["t"])] rfl).2
     ⟨("b", PredVal.lst ["t"]), by simp, rfl⟩⟩

end RagLab
